import Mathlib

/-!
Verification of the shaka-game board-game logic.

This file shallowly embeds the game logic of the repository:

* `src/src/utils/player.js` — the `Player` class: the movement rule
  (`Player.move`, factored here into `wrapIndex`/`clampIndex`/`moveIndex`),
  target confirmation (`Player.checkTarget`) and the power/steal mechanic
  (`Player.incrementPower`);
* `src/src/multiplayer/main.js` — the client-side `MultiplayerGame` class:
  the local-preview-and-emit of moves (`MultiplayerGame.movePlayer`) and
  the reconciliation of server broadcasts (`MultiplayerGame.updateGameState`).

DOM CSS classes are embedded symbolically (`CssClass`), a board button is a
record of its numeric label (`innerHTML`) and its class list, and side
effects on the DOM/UI are returned explicitly (updated button lists and
effect flags).  JavaScript numbers holding board positions are embedded as
`Int` because the raw arithmetic of the movement rule passes through
negative values.
-/

/-- A CSS class manipulated by the game logic.  The source builds the class
names `founded-by-playerN`, `position-of-playerN` and `stolenN` from the
player index (`getFoundClass`, `getPositionClass`, `getStolenClass` in
`player.js`); we embed them symbolically. -/
inductive CssClass : Type where
  | foundedByPlayer : Nat → CssClass
  | positionOfPlayer : Nat → CssClass
  | stolen : Nat → CssClass
deriving DecidableEq, Repr

/-- A board button: its displayed number (`innerHTML`) and its class list.
`classList` is kept as a list; `classAdd` below is idempotent, matching
`DOMTokenList.add`. -/
structure Button : Type where
  innerHTML : Nat
  classList : List CssClass
deriving DecidableEq, Repr

/-- Embeds `classList.contains c` on a button. -/
def Button.hasClass (b : Button) (c : CssClass) : Bool :=
  decide (c ∈ b.classList)

/-- Embeds `classList.add c`: a no-op when the class is already present
(`DOMTokenList` is a set). -/
def Button.classAdd (b : Button) (c : CssClass) : Button :=
  if c ∈ b.classList then b else { b with classList := b.classList ++ [c] }

/-- Embeds `classList.remove c`. -/
def Button.classRemove (b : Button) (c : CssClass) : Button :=
  { b with classList := b.classList.filter (fun x => decide (x ≠ c)) }

/-- Embeds `buttons[i]` for a possibly out-of-range JavaScript index
(out of range yields `undefined`, embedded as `none`). -/
def getAt (bs : List Button) (i : Int) : Option Button :=
  if 0 ≤ i then bs.get? i.toNat else none

/-- Replace the button at JavaScript index `i` by `f` of it; a no-op when
the index is out of range (the source guards with `if (buttons[i])`). -/
def setAt (bs : List Button) (i : Int) (f : Button → Button) : List Button :=
  if 0 ≤ i then
    match bs.get? i.toNat with
    | some b => bs.set i.toNat (f b)
    | none => bs
  else bs

/-- Update the first element of a list satisfying `pred` by `f`
(the `Array.prototype.find`-then-mutate idiom of the source). -/
def updateFirst (pred : α → Bool) (f : α → α) : List α → List α
  | [] => []
  | x :: xs => if pred x then f x :: xs else x :: updateFirst pred f xs

/-- The boundary-adjustment chain of `Player.move` (`player.js` lines
95–105), applied to the raw sum `q = positionIndex + direction`.  The
second branch (`q = 101 ∧ direction = 10`) and the fifth (`q = -9`) are
dead: they are shadowed by the first and fourth branches respectively —
they are kept to mirror the source exactly. -/
def wrapIndex (q d : Int) : Int :=
  if q = 110 ∨ q = 101 then 1
  else if q = 101 ∧ d = 10 then 2
  else if 101 < q ∧ q < 110 then q - 99
  else if q < 1 then q + 99
  else if q = -9 then 100
  else q

/-- The final safety clamp of `Player.move` (`player.js` lines 107–109):
positions below 1 become 1, above 100 become 100. -/
def clampIndex (q : Int) : Int :=
  if (if q < 1 then 1 else q) > 100 then 100 else (if q < 1 then 1 else q)

/-- The complete position arithmetic of `Player.move`: add the direction,
apply the boundary adjustments, clamp into `[1,100]`. -/
def moveIndex (p d : Int) : Int :=
  clampIndex (wrapIndex (p + d) d)

/-- The game-relevant state of the `Player` class (`player.js`).  The
presentation-only fields `name`, `color` and `controls` are omitted; every
field read or written by `move`, `checkTarget` and `incrementPower` is
kept under its source name. -/
structure Player : Type where
  index : Nat
  score : Nat
  moveCount : Nat
  power : Nat
  powerCounter : Nat
  saves : Nat
  stolen : Nat
  positionIndex : Int
  isReady : Bool
deriving DecidableEq, Repr

/-- Embeds `getFoundClass()`: the class `founded-by-playerN`. -/
def Player.getFoundClass (p : Player) : CssClass :=
  CssClass.foundedByPlayer p.index

/-- Embeds `getPositionClass()`: the class `position-of-playerN`. -/
def Player.getPositionClass (p : Player) : CssClass :=
  CssClass.positionOfPlayer p.index

/-- Embeds `getStolenClass()`: the class `stolenN`. -/
def Player.getStolenClass (p : Player) : CssClass :=
  CssClass.stolen p.index

/-- The `Player` constructor's game-relevant initialisation: all counters
start at 0, `positionIndex` is `config.startPosition || 1` (so an absent
— or zero, by JavaScript falsiness — start position defaults to 1). -/
def Player.create (index : Nat) (startPosition : Option Int) : Player :=
  { index := index
    score := 0
    moveCount := 0
    power := 0
    powerCounter := 0
    saves := 0
    stolen := 0
    positionIndex :=
      match startPosition with
      | some s => if s = 0 then 1 else s
      | none => 1
    isReady := false }

/-- Embeds `Player.move(direction, buttons)` (`player.js` lines 68–120).  The
`buttons` argument is `Option (List Button)`: `none` embeds a missing
(`undefined`) array, matching the `!buttons || buttons.length === 0`
early return.  Returns the updated player, the updated button list and
the returned position. -/
def Player.move (p : Player) (direction : Int) (buttons : Option (List Button)) :
    Player × Option (List Button) × Int :=
  match buttons with
  | none => (p, none, p.positionIndex)
  | some bs =>
    if bs.length = 0 then (p, some bs, p.positionIndex)
    else
      let foundPreviousPosition := bs.any (fun b => b.hasClass p.getPositionClass)
      let bs1 := bs.map (fun b => b.classRemove p.getPositionClass)
      let p1 := if foundPreviousPosition then { p with moveCount := p.moveCount + 1 } else p
      let newPos := moveIndex p1.positionIndex direction
      let p2 := { p1 with positionIndex := newPos }
      let bs2 := setAt bs1 (newPos - 1) (fun b => b.classAdd p.getPositionClass)
      (p2, some bs2, newPos)

/-- The result of `Player.checkTarget`: the source returns `true`,
the string `stolen-recovered`, the string `saved`, or `false`. -/
inductive CheckResult : Type where
  | targetFound : CheckResult
  | stolenRecovered : CheckResult
  | saved : CheckResult
  | nothingFound : CheckResult
deriving DecidableEq, Repr

/-- The opponent index used by `checkTarget`:
`this.index === 1 ? 2 : 1`. -/
def otherIndex (i : Nat) : Nat :=
  if i = 1 then 2 else 1

/-- Embeds `Player.checkTarget(position, buttons, target)` (`player.js` lines
141–171).  Returns the updated player, the updated button list and the
result.  A missing button (`!button`) returns `false` untouched. -/
def Player.checkTarget (p : Player) (position : Int) (buttons : List Button)
    (target : Nat) : Player × List Button × CheckResult :=
  match getAt buttons (position - 1) with
  | none => (p, buttons, CheckResult.nothingFound)
  | some button =>
    if button.innerHTML = target then
      (p, setAt buttons (position - 1) (fun b => b.classAdd p.getFoundClass),
        CheckResult.targetFound)
    else if button.hasClass (CssClass.stolen p.index) then
      ({ p with stolen := p.stolen + 1, powerCounter := 0 },
        setAt buttons (position - 1)
          (fun b => (b.classRemove (CssClass.stolen p.index)).classAdd p.getFoundClass),
        CheckResult.stolenRecovered)
    else if button.hasClass (CssClass.stolen (otherIndex p.index)) then
      ({ p with saves := p.saves + 1, powerCounter := 0 },
        setAt buttons (position - 1)
          (fun b => (b.classRemove (CssClass.stolen (otherIndex p.index))).classAdd p.getFoundClass),
        CheckResult.saved)
    else
      (p, buttons, CheckResult.nothingFound)

/-- Embeds `Player.incrementPower(opponent, opponentFoundElements)` (`player.js`
lines 179–196).  The uniformly random pick `Math.floor(Math.random() *
length)` is embedded through the explicit index `randomIndex` (the
injectable-randomness seam).  Returns the updated acting player, the
updated opponent, the updated found-element list and the stole? flag. -/
def Player.incrementPower (p opponent : Player)
    (opponentFoundElements : List Button) (randomIndex : Nat) :
    Player × Player × List Button × Bool :=
  let opponent1 : Player := { opponent with powerCounter := 0 }
  let p1 : Player := { p with powerCounter := p.powerCounter + 1 }
  if p1.powerCounter = 3 then
    let p2 : Player := { p1 with power := p1.power + 1 }
    if opponentFoundElements.length > 0 then
      let els :=
        if h : randomIndex < opponentFoundElements.length then
          opponentFoundElements.set randomIndex
            (((opponentFoundElements.get ⟨randomIndex, h⟩).classRemove
                opponent.getFoundClass).classAdd p.getStolenClass)
        else opponentFoundElements
      (p2, opponent1, els, true)
    else (p2, opponent1, opponentFoundElements, false)
  else (p1, opponent1, opponentFoundElements, false)

/-! ## The client-side multiplayer game (`src/src/multiplayer/main.js`) -/

/-- A player entry of a server room snapshot (`room.players[i]` as consumed
by `updateGameState`): `id`, authoritative `position` and `score`. -/
structure SPlayer : Type where
  id : Nat
  position : Int
  score : Nat
deriving DecidableEq, Repr

/-- The `lastMove` delta of a `game_update` broadcast: its `type` tag
(`move` or `confirm`), the `targetFound` flag and the acting
`playerId`. -/
structure LastMove : Type where
  type : String
  targetFound : Bool
  playerId : Nat
deriving DecidableEq, Repr

/-- The payload the client emits with `player_move` (`main.js` lines
594–598): room code, player id and the absolute, locally computed
position.  No direction intent is part of the payload. -/
structure MoveMsg : Type where
  roomCode : String
  playerId : Nat
  position : Int
deriving DecidableEq, Repr

/-- The game-relevant state of a client-side `MultiplayerPlayer` as used by
`MultiplayerGame`: its server-assigned `id`, board `index`, local
`positionIndex` and `score`.  (The `MultiplayerPlayer` class itself is not
under `src/`; these are exactly the fields `updateGameState` and
`movePlayer` read or write.) -/
structure MPPlayer : Type where
  id : Nat
  index : Nat
  positionIndex : Int
  score : Nat
deriving DecidableEq, Repr

/-- Embeds `getFoundClass()` of a `MultiplayerPlayer`: same `founded-by-playerN`
class scheme as `Player`. -/
def MPPlayer.getFoundClass (p : MPPlayer) : CssClass :=
  CssClass.foundedByPlayer p.index

/-- Modelled from the spec: `MultiplayerPlayer.updatePosition` is not under
`src/`; per §4.4 of the spec, on receiving a server snapshot the client
corrects a differing local position to the server's ("server wins"); the
accompanying marker move is presentation-only. -/
def MPPlayer.updatePosition (p : MPPlayer) (position : Int) : MPPlayer :=
  { p with positionIndex := position }

/-- The game-relevant state of the `MultiplayerGame` class: the current
target, the running flag, the local player roster, the board buttons, and
the connection/identity fields used by `movePlayer`. -/
structure MPState : Type where
  currentTarget : Nat
  gameRunning : Bool
  players : List MPPlayer
  buttons : List Button
  playerId : Nat
  roomCode : String
  socketConnected : Bool
deriving DecidableEq, Repr

/-- The `room` argument of `updateGameState`: the players roster of the
snapshot and its `gameState.currentTarget`. -/
structure RoomSnapshot : Type where
  players : List SPlayer
  currentTarget : Nat
deriving DecidableEq, Repr

/-- The externally visible side effects of one `updateGameState` call:
whether the found-cell marker was (re)applied to the board, whether the
found animation was triggered (`player.addFoundAnimation`, a
presentation effect of the `MultiplayerPlayer` class not under `src/`,
recorded here as a flag), and whether the game-over screen was shown
(`ui.showGameOver`). -/
structure UpdateEffects : Type where
  foundMarkerApplied : Bool
  foundAnimationTriggered : Bool
  gameOverShown : Bool
deriving DecidableEq, Repr

/-- Embeds `MultiplayerGame.movePlayer(direction)` (`main.js` lines 577–602):
finds the current player, previews the move locally with the §4.2
movement arithmetic (`MultiplayerPlayer.move` is not under `src/`; per
§4.4 of the spec the client "immediately recompute[s] [the] predicted
position using §4.2 movement rule", i.e. `moveIndex`), then — when the
socket is connected — emits `player_move` carrying the player's absolute
post-move `positionIndex`. -/
def MultiplayerGame.movePlayer (st : MPState) (direction : Int) :
    MPState × Option MoveMsg :=
  match st.players.find? (fun q => decide (q.id = st.playerId)) with
  | none => (st, none)
  | some _ =>
    let players' := updateFirst (fun q : MPPlayer => decide (q.id = st.playerId))
      (fun q : MPPlayer => { q with positionIndex := moveIndex q.positionIndex direction })
      st.players
    let st' := { st with players := players' }
    match st'.players.find? (fun q => decide (q.id = st.playerId)) with
    | none => (st', none)
    | some moved =>
      if st.socketConnected then
        (st', some { roomCode := st.roomCode, playerId := st.playerId,
                     position := moved.positionIndex })
      else (st', none)

/-- Modelled from the spec: the relay server's `player_move` handler is not
under `src/` (only the client that calls it is).  Per the spec's §9 design
note — "Implicit trust of client-submitted position in move/confirm
handling" — the handler stores the client-submitted absolute `position`
as the player's authoritative position. -/
def serverApplyMove (room : List SPlayer) (msg : MoveMsg) : List SPlayer :=
  updateFirst (fun sp : SPlayer => decide (sp.id = msg.playerId))
    (fun sp : SPlayer => { sp with position := msg.position }) room

/-- Embeds `MultiplayerGame.updateGameState(room, lastMove)` (`main.js` lines
609–680): adopt a changed target, reconcile every roster entry's position
and score to the server's values, apply the found marker and animation
for a confirm-tagged `targetFound` delta, then run the two end-game
checks.  Returns the new client state and the effect flags. -/
def MultiplayerGame.updateGameState (st : MPState) (room : RoomSnapshot)
    (lastMove : Option LastMove) : MPState × UpdateEffects :=
  let ct := if room.currentTarget ≠ st.currentTarget then room.currentTarget
            else st.currentTarget
  let players := room.players.foldl (fun acc sp =>
    updateFirst (fun q : MPPlayer => decide (q.id = sp.id))
      (fun q : MPPlayer =>
        let q1 := if q.positionIndex ≠ sp.position then q.updatePosition sp.position
                  else q
        if q1.score ≠ sp.score then { q1 with score := sp.score } else q1)
      acc) st.players
  let foundStep :=
    match lastMove with
    | some lm =>
      if lm.targetFound && decide (lm.type = "confirm") then
        match players.find? (fun q : MPPlayer => decide (q.id = lm.playerId)) with
        | some player =>
          match st.buttons.find? (fun b : Button => decide (b.innerHTML = ct - 1)) with
          | some _ =>
            (updateFirst (fun b : Button => decide (b.innerHTML = ct - 1))
              (fun b : Button => b.classAdd player.getFoundClass) st.buttons,
             true,
             decide (player.id = lm.playerId))
          | none => (st.buttons, false, false)
        | none => (st.buttons, false, false)
      else (st.buttons, false, false)
    | none => (st.buttons, false, false)
  let running1 := if 100 < room.currentTarget then false else st.gameRunning
  let shown1 := decide (100 < room.currentTarget)
  let highScore := (room.players.find? (fun p => decide (50 < p.score))).isSome
  let running2 := if highScore && running1 then false else running1
  let shown2 := shown1 || (highScore && running1)
  ({ st with currentTarget := ct, players := players, buttons := foundStep.1,
             gameRunning := running2 },
   { foundMarkerApplied := foundStep.2.1
     foundAnimationTriggered := foundStep.2.2
     gameOverShown := shown2 })

/-! ## Helper lemmas -/

/-- The clamp makes every result of the movement arithmetic land in
`[1,100]`, whatever the inputs. -/
theorem moveIndex_mem (p d : Int) : 1 ≤ moveIndex p d ∧ moveIndex p d ≤ 100 := by
  unfold moveIndex wrapIndex clampIndex
  split_ifs <;> omega

/-- The `setAt` operation never changes the length of the button list. -/
theorem setAt_length (bs : List Button) (i : Int) (f : Button → Button) :
    (setAt bs i f).length = bs.length := by
  unfold setAt
  split_ifs
  · split
    · rw [List.length_set]
    · rfl
  · rfl

/-- On a present, non-empty board, `Player.move` stores and returns
`moveIndex` of the old position, and the board keeps its length. -/
theorem move_some_spec (p : Player) (d : Int) (bs : List Button)
    (h : bs.length ≠ 0) :
    (p.move d (some bs)).1.positionIndex = moveIndex p.positionIndex d ∧
    (p.move d (some bs)).2.2 = moveIndex p.positionIndex d ∧
    ∃ bs2, (p.move d (some bs)).2.1 = some bs2 ∧ bs2.length = bs.length := by
  refine ⟨?_, ?_, setAt (bs.map fun b => b.classRemove p.getPositionClass)
      (moveIndex p.positionIndex d - 1) (fun b => b.classAdd p.getPositionClass), ?_, ?_⟩
  · by_cases hf : bs.any (fun b => b.hasClass p.getPositionClass) = true
    · simp only [Player.move, if_neg h, if_pos hf]
    · simp only [Player.move, if_neg h, if_neg hf]
  · by_cases hf : bs.any (fun b => b.hasClass p.getPositionClass) = true
    · simp only [Player.move, if_neg h, if_pos hf]
    · simp only [Player.move, if_neg h, if_neg hf]
  · by_cases hf : bs.any (fun b => b.hasClass p.getPositionClass) = true
    · simp only [Player.move, if_neg h, if_pos hf]
    · simp only [Player.move, if_neg h, if_neg hf]
  · rw [setAt_length, List.length_map]

/-- A right step from an interior position is plain increment. -/
theorem moveIndex_right (p : Int) (h1 : 1 ≤ p) (h2 : p ≤ 99) :
    moveIndex p 1 = p + 1 := by
  unfold moveIndex wrapIndex clampIndex
  split_ifs <;> omega

/-- A left step from a position not on the left wrap is plain decrement. -/
theorem moveIndex_left (p : Int) (h1 : 2 ≤ p) (h2 : p ≤ 100) :
    moveIndex p (-1) = p - 1 := by
  unfold moveIndex wrapIndex clampIndex
  split_ifs <;> omega

/-- Moving right then left on the raw arithmetic is the identity away from
the right wrap (positions 1–99). -/
theorem moveIndex_roundtrip (p : Int) (h1 : 1 ≤ p) (h2 : p ≤ 99) :
    moveIndex (moveIndex p 1) (-1) = p := by
  rw [moveIndex_right p h1 h2, moveIndex_left (p + 1) (by omega) (by omega)]
  omega

/-! ## Claims about the movement rule -/

/-- Claim C1, counterexample: the claim says a player in row 1 moved up
wraps to the same column of row 10 (`p + 90`); at position 1 the code
yields 90, not 91 — the boundary arithmetic lands one cell short. -/
theorem c1_wrap_counterexample :
    (Player.move (Player.create 1 (some 1)) (-10)
        (some [{ innerHTML := 1, classList := [] }])).2.2 = 90 ∧
    ¬ (Player.move (Player.create 1 (some 1)) (-10)
        (some [{ innerHTML := 1, classList := [] }])).2.2 = 1 + 90 := by
  decide

/-- Claim C1, amended: stepping up off row 1 lands at `p + 89` (one cell
short of the same-column torus target `p + 90`), and stepping down off
row 10 lands at 1 for positions 91 and 100 and at `p - 89` otherwise
(instead of `p - 90`). -/
theorem c1_wrap_amended (p : Int) (h1 : 1 ≤ p) (h2 : p ≤ 100) :
    (p ≤ 10 → moveIndex p (-10) = p + 89) ∧
    (91 ≤ p → moveIndex p 10 = if p = 91 ∨ p = 100 then 1 else p - 89) := by
  constructor
  · intro h3
    unfold moveIndex wrapIndex clampIndex
    split_ifs <;> omega
  · intro h3
    unfold moveIndex wrapIndex clampIndex
    split_ifs <;> omega

/-- Claim C1, witness for the amended theorem at position 5. -/
theorem c1_wrap_amended_witness :
    ((1 : Int) ≤ 5 ∧ (5 : Int) ≤ 100) ∧
    (((5 : Int) ≤ 10 → moveIndex 5 (-10) = 5 + 89) ∧
      ((91 : Int) ≤ 5 →
        moveIndex 5 10 = if (5 : Int) = 91 ∨ (5 : Int) = 100 then 1 else 5 - 89)) :=
  ⟨⟨by decide, by decide⟩, c1_wrap_amended 5 (by decide) (by decide)⟩

/-- Claim C6: starting from a position in `[1,100]` and any of the four
directions, the position `Player.move` stores in `positionIndex` and the
one it returns both lie in `[1,100]` — the final clamp is a defensive
floor. -/
theorem c6_position_range (p : Player) (d : Int) (buttons : Option (List Button))
    (h1 : 1 ≤ p.positionIndex) (h2 : p.positionIndex ≤ 100)
    (hd : d = -10 ∨ d = -1 ∨ d = 1 ∨ d = 10) :
    (1 ≤ (p.move d buttons).1.positionIndex ∧
      (p.move d buttons).1.positionIndex ≤ 100) ∧
    (1 ≤ (p.move d buttons).2.2 ∧ (p.move d buttons).2.2 ≤ 100) := by
  cases buttons with
  | none => exact ⟨⟨h1, h2⟩, ⟨h1, h2⟩⟩
  | some bs =>
    by_cases h : bs.length = 0
    · simp only [Player.move, if_pos h]
      exact ⟨⟨h1, h2⟩, ⟨h1, h2⟩⟩
    · obtain ⟨e1, e2, _⟩ := move_some_spec p d bs h
      rw [e1, e2]
      exact ⟨moveIndex_mem _ _, moveIndex_mem _ _⟩

/-- Claim C6, witness: moving down from position 100 stays in `[1,100]`. -/
theorem c6_position_range_witness :
    (1 ≤ (Player.move (Player.create 1 (some 100)) 10
        (some [{ innerHTML := 1, classList := [] }])).1.positionIndex ∧
      (Player.move (Player.create 1 (some 100)) 10
        (some [{ innerHTML := 1, classList := [] }])).1.positionIndex ≤ 100) ∧
    (1 ≤ (Player.move (Player.create 1 (some 100)) 10
        (some [{ innerHTML := 1, classList := [] }])).2.2 ∧
      (Player.move (Player.create 1 (some 100)) 10
        (some [{ innerHTML := 1, classList := [] }])).2.2 ≤ 100) :=
  c6_position_range (Player.create 1 (some 100)) 10
    (some [{ innerHTML := 1, classList := [] }])
    (by decide) (by decide) (by decide)

/-- Claim C7: for an interior position (1–99, where neither step crosses a
wrap boundary), moving with direction `+1` and then `-1` returns the
player to the original position. -/
theorem c7_move_roundtrip (p : Player) (bs : List Button)
    (h0 : bs.length ≠ 0) (h1 : 1 ≤ p.positionIndex) (h2 : p.positionIndex ≤ 99) :
    (((p.move 1 (some bs)).1).move (-1) ((p.move 1 (some bs)).2.1)).1.positionIndex
      = p.positionIndex := by
  obtain ⟨e1, _, bs2, e3, e4⟩ := move_some_spec p 1 bs h0
  rw [e3]
  have h0' : bs2.length ≠ 0 := by rw [e4]; exact h0
  obtain ⟨f1, _, _⟩ := move_some_spec ((p.move 1 (some bs)).1) (-1) bs2 h0'
  rw [f1, e1, moveIndex_roundtrip p.positionIndex h1 h2]

/-- Claim C7, witness at position 42. -/
theorem c7_move_roundtrip_witness :
    (((Player.create 1 (some 42)).move 1
        (some [{ innerHTML := 1, classList := [] }])).1.move (-1)
      (((Player.create 1 (some 42)).move 1
        (some [{ innerHTML := 1, classList := [] }])).2.1)).1.positionIndex
      = (Player.create 1 (some 42)).positionIndex :=
  c7_move_roundtrip (Player.create 1 (some 42))
    [{ innerHTML := 1, classList := [] }] (by decide) (by decide) (by decide)

/-- Claim C10: calling `move` with a missing (`undefined`) or empty
buttons array returns the current `positionIndex` and leaves the whole
player record — `positionIndex`, `moveCount`, `score`, `powerCounter` and
every other field — and the board untouched. -/
theorem c10_move_no_board (p : Player) (d : Int) :
    p.move d none = (p, none, p.positionIndex) ∧
    p.move d (some []) = (p, some [], p.positionIndex) :=
  ⟨rfl, rfl⟩

/-! ## Claims about the power mechanic and confirmation -/

/-- A concrete player one increment away from the power threshold, used by
concrete witnesses and counterexamples. -/
def samplePlayer2 : Player :=
  { index := 1, score := 0, moveCount := 0, power := 0, powerCounter := 2,
    saves := 0, stolen := 0, positionIndex := 1, isReady := false }

/-- A concrete opponent player. -/
def sampleOpp : Player := Player.create 2 (some 5)

/-- Claim C8: when `incrementPower` raises the acting player's counter to 3
while the opponent's found-cell list is empty, no steal happens: the call
returns the no-steal flag, the found list is unchanged, and the only
mutations are the opponent's counter reset and the acting player's
counter/power increments. -/
theorem c8_no_steal (p opp : Player) (r : Nat) (h : p.powerCounter = 2) :
    p.incrementPower opp [] r =
      ({ p with powerCounter := 3, power := p.power + 1 },
       { opp with powerCounter := 0 }, [], false) := by
  simp [Player.incrementPower, h]

/-- Claim C8, witness at a concrete pair of players. -/
theorem c8_no_steal_witness :
    samplePlayer2.incrementPower sampleOpp [] 0 =
      ({ samplePlayer2 with powerCounter := 3, power := samplePlayer2.power + 1 },
       { sampleOpp with powerCounter := 0 }, [], false) :=
  c8_no_steal samplePlayer2 sampleOpp 0 rfl

/-- The `checkTarget` operation either resets the acting player's `powerCounter` to 0 or
leaves it unchanged. -/
theorem checkTarget_powerCounter (p : Player) (pos : Int) (bs : List Button)
    (t : Nat) :
    (p.checkTarget pos bs t).1.powerCounter = 0 ∨
    (p.checkTarget pos bs t).1.powerCounter = p.powerCounter := by
  cases hg : getAt bs (pos - 1) with
  | none => simp [Player.checkTarget, hg]
  | some b =>
    simp only [Player.checkTarget, hg]
    split_ifs <;> simp

/-- The `incrementPower` operation increments the acting player's counter by exactly one
and resets the opponent's to 0, in every branch. -/
theorem incrementPower_counters (p opp : Player) (els : List Button) (r : Nat) :
    (p.incrementPower opp els r).1.powerCounter = p.powerCounter + 1 ∧
    (p.incrementPower opp els r).2.1.powerCounter = 0 := by
  simp only [Player.incrementPower]
  split_ifs <;> simp

/-- Claim C9, counterexample: from a counter of 2, `incrementPower` leaves
the acting player's `powerCounter` at 3, which is outside the claimed
range `[0,3)`. -/
theorem c9_power_counter_counterexample :
    (samplePlayer2.incrementPower sampleOpp [] 0).1.powerCounter = 3 ∧
    ¬ ((samplePlayer2.incrementPower sampleOpp [] 0).1.powerCounter < 3) := by
  decide

/-- Claim C9, amended: `powerCounter` starts at 0 and stays in the closed
range `[0,3]` across single operations: `checkTarget` never increases it
(so it stays below 3), while `incrementPower` adds exactly 1 to the
acting player (reaching 3 when the power triggers, with no self-reset)
and zeroes the opponent. -/
theorem c9_power_counter_amended (i : Nat) (s : Option Int) (p opp : Player)
    (pos : Int) (bs : List Button) (t : Nat) (els : List Button) (r : Nat)
    (h : p.powerCounter < 3) :
    (Player.create i s).powerCounter = 0 ∧
    (p.checkTarget pos bs t).1.powerCounter < 3 ∧
    (p.incrementPower opp els r).1.powerCounter ≤ 3 ∧
    (p.incrementPower opp els r).2.1.powerCounter = 0 := by
  refine ⟨rfl, ?_, ?_, (incrementPower_counters p opp els r).2⟩
  · rcases checkTarget_powerCounter p pos bs t with h0 | h0 <;> omega
  · rw [(incrementPower_counters p opp els r).1]
    omega

/-- Claim C9, witness for the amended theorem at concrete players. -/
theorem c9_power_counter_amended_witness :
    (Player.create 1 none).powerCounter = 0 ∧
    (samplePlayer2.checkTarget 1 [] 1).1.powerCounter < 3 ∧
    (samplePlayer2.incrementPower sampleOpp [] 0).1.powerCounter ≤ 3 ∧
    (samplePlayer2.incrementPower sampleOpp [] 0).2.1.powerCounter = 0 :=
  c9_power_counter_amended 1 none samplePlayer2 sampleOpp 1 [] 1 [] 0 (by decide)

/-- Claim C2: confirm branch semantics of `checkTarget` — target-found is
reported iff the label under the player equals the target; otherwise a
cell marked stolen-by-opponent is recovered as found-by-player with
`saves` incremented and `powerCounter` reset; otherwise a cell marked
stolen-by-self is recovered as found-by-player with `stolen` incremented
and `powerCounter` reset; otherwise nothing changes.  The hypothesis `hx`
is the board tri-state invariant: a cell is never marked stolen by both
players at once. -/
theorem c2_check_target (p : Player) (pos : Int) (bs : List Button) (t : Nat)
    (b : Button) (hb : getAt bs (pos - 1) = some b)
    (hx : ¬ (CssClass.stolen p.index ∈ b.classList ∧
             CssClass.stolen (otherIndex p.index) ∈ b.classList)) :
    ((p.checkTarget pos bs t).2.2 = CheckResult.targetFound ↔ b.innerHTML = t) ∧
    (b.innerHTML ≠ t → CssClass.stolen (otherIndex p.index) ∈ b.classList →
      p.checkTarget pos bs t =
        ({ p with saves := p.saves + 1, powerCounter := 0 },
         setAt bs (pos - 1)
           (fun c => (c.classRemove (CssClass.stolen (otherIndex p.index))).classAdd
             p.getFoundClass),
         CheckResult.saved)) ∧
    (b.innerHTML ≠ t → CssClass.stolen (otherIndex p.index) ∉ b.classList →
      CssClass.stolen p.index ∈ b.classList →
      p.checkTarget pos bs t =
        ({ p with stolen := p.stolen + 1, powerCounter := 0 },
         setAt bs (pos - 1)
           (fun c => (c.classRemove (CssClass.stolen p.index)).classAdd
             p.getFoundClass),
         CheckResult.stolenRecovered)) ∧
    (b.innerHTML ≠ t → CssClass.stolen p.index ∉ b.classList →
      CssClass.stolen (otherIndex p.index) ∉ b.classList →
      p.checkTarget pos bs t = (p, bs, CheckResult.nothingFound)) := by
  by_cases ht : b.innerHTML = t
  · simp [Player.checkTarget, hb, ht]
  · by_cases hs : CssClass.stolen p.index ∈ b.classList
    · have ho : CssClass.stolen (otherIndex p.index) ∉ b.classList :=
        fun hc => hx ⟨hs, hc⟩
      simp [Player.checkTarget, hb, ht, hs, ho, Button.hasClass]
    · by_cases ho : CssClass.stolen (otherIndex p.index) ∈ b.classList
      · simp [Player.checkTarget, hb, ht, hs, ho, Button.hasClass]
      · simp [Player.checkTarget, hb, ht, hs, ho, Button.hasClass]

/-- Concrete player for the C2 witness. -/
def c2p : Player := Player.create 1 (some 1)

/-- Concrete button carrying a cell stolen by the opponent (index 2). -/
def c2b : Button := { innerHTML := 5, classList := [CssClass.stolen 2] }

/-- Concrete single-cell board for the C2 witness. -/
def c2bs : List Button := [c2b]

/-- Claim C2, witness: at a concrete board whose cell was stolen by the
opponent, confirmation recovers it as a save. -/
theorem c2_check_target_witness :
    ((c2p.checkTarget 1 c2bs 7).2.2 = CheckResult.targetFound ↔
      c2b.innerHTML = 7) ∧
    (c2b.innerHTML ≠ 7 → CssClass.stolen (otherIndex c2p.index) ∈ c2b.classList →
      c2p.checkTarget 1 c2bs 7 =
        ({ c2p with saves := c2p.saves + 1, powerCounter := 0 },
         setAt c2bs (1 - 1)
           (fun c => (c.classRemove (CssClass.stolen (otherIndex c2p.index))).classAdd
             c2p.getFoundClass),
         CheckResult.saved)) ∧
    (c2b.innerHTML ≠ 7 → CssClass.stolen (otherIndex c2p.index) ∉ c2b.classList →
      CssClass.stolen c2p.index ∈ c2b.classList →
      c2p.checkTarget 1 c2bs 7 =
        ({ c2p with stolen := c2p.stolen + 1, powerCounter := 0 },
         setAt c2bs (1 - 1)
           (fun c => (c.classRemove (CssClass.stolen c2p.index)).classAdd
             c2p.getFoundClass),
         CheckResult.stolenRecovered)) ∧
    (c2b.innerHTML ≠ 7 → CssClass.stolen c2p.index ∉ c2b.classList →
      CssClass.stolen (otherIndex c2p.index) ∉ c2b.classList →
      c2p.checkTarget 1 c2bs 7 = (c2p, c2bs, CheckResult.nothingFound)) :=
  c2_check_target c2p 1 c2bs 7 c2b (by decide) (by decide)

/-! ## Claims about the multiplayer client and relay -/

/-- Running `find?` after `updateFirst` with the same predicate returns the updated
element, provided the update preserves the predicate. -/
theorem find?_updateFirst {α : Type} (pred : α → Bool) (f : α → α)
    (l : List α) (q : α) (h : l.find? pred = some q)
    (hf : pred (f q) = true) :
    (updateFirst pred f l).find? pred = some (f q) := by
  induction l with
  | nil => simp [List.find?] at h
  | cons x xs ih =>
    by_cases hx : pred x = true
    · rw [List.find?_cons_of_pos _ hx] at h
      injection h with h
      subst h
      simp [updateFirst, hx, List.find?_cons_of_pos _ hf]
    · rw [List.find?_cons_of_neg _ hx] at h
      simp only [updateFirst, hx, if_false, Bool.false_eq_true]
      rw [List.find?_cons_of_neg _ hx]
      exact ih h

/-- Success of `find?` is the same test as `any`. -/
theorem find?_isSome_any {α : Type} (pred : α → Bool) (l : List α) :
    (l.find? pred).isSome = l.any pred := by
  induction l with
  | nil => rfl
  | cons x xs ih =>
    cases hx : pred x
    · rw [List.find?_cons_of_neg _ (by simp [hx])]
      simp [hx, ih]
    · rw [List.find?_cons_of_pos _ hx]
      simp [hx]

/-- Concrete room roster for the C3 counterexample: one player whose last
authoritative position is 1. -/
def c3room : List SPlayer := [{ id := 7, position := 1, score := 0 }]

/-- A forged `player_move` payload claiming position 55. -/
def c3msg : MoveMsg := { roomCode := "AB", playerId := 7, position := 55 }

/-- Claim C3, counterexample: the relay (modelled from the spec's §9 note
of implicit trust, since the server code is not under `src/`) adopts the
client-submitted absolute position 55 as authoritative, although 55 is
not reachable from the last authoritative position 1 by any single
application of the §4.2 movement rule — so the position is not re-derived
by the server. -/
theorem c3_server_trust_counterexample :
    serverApplyMove c3room c3msg = [{ id := 7, position := 55, score := 0 }] ∧
    moveIndex 1 (-10) ≠ 55 ∧ moveIndex 1 (-1) ≠ 55 ∧
    moveIndex 1 1 ≠ 55 ∧ moveIndex 1 10 ≠ 55 := by
  decide

/-- Claim C3, amended: the client's `movePlayer` emits the absolute,
locally recomputed position (the §4.2 arithmetic applied to its own last
local position) as the `player_move` payload — the payload carries no
direction intent — and the relay stores the submitted position verbatim
as the player's authoritative position. -/
theorem c3_server_trust_amended (st : MPState) (d : Int) (q : MPPlayer)
    (sp : SPlayer) (m : MoveMsg)
    (h1 : st.players.find? (fun x : MPPlayer => decide (x.id = st.playerId)) = some q)
    (h2 : st.socketConnected = true)
    (h3 : sp.id = m.playerId) :
    (MultiplayerGame.movePlayer st d).2 =
      some { roomCode := st.roomCode, playerId := st.playerId,
             position := moveIndex q.positionIndex d } ∧
    serverApplyMove [sp] m = [{ sp with position := m.position }] := by
  constructor
  · have hq : (fun x : MPPlayer => decide (x.id = st.playerId))
        ({ q with positionIndex := moveIndex q.positionIndex d }) = true := by
      have := List.find?_some h1
      simpa using this
    have h4 := find?_updateFirst
      (fun x : MPPlayer => decide (x.id = st.playerId))
      (fun x : MPPlayer => { x with positionIndex := moveIndex x.positionIndex d })
      st.players q h1 hq
    simp only [MultiplayerGame.movePlayer, h1, h4, h2, if_true]
  · simp [serverApplyMove, updateFirst, h3]

/-- Concrete client state for the C3 witness. -/
def c3st : MPState :=
  { currentTarget := 1, gameRunning := true,
    players := [{ id := 7, index := 1, positionIndex := 5, score := 0 }],
    buttons := [{ innerHTML := 1, classList := [] }],
    playerId := 7, roomCode := "AB", socketConnected := true }

/-- Claim C3, witness for the amended theorem at a concrete client state. -/
theorem c3_server_trust_amended_witness :
    (MultiplayerGame.movePlayer c3st 1).2 =
      some { roomCode := c3st.roomCode, playerId := c3st.playerId,
             position := moveIndex (5 : Int) 1 } ∧
    serverApplyMove [{ id := 7, position := 1, score := 0 }] c3msg =
      [{ ({ id := 7, position := 1, score := 0 } : SPlayer) with
          position := c3msg.position }] :=
  c3_server_trust_amended c3st 1
    { id := 7, index := 1, positionIndex := 5, score := 0 }
    { id := 7, position := 1, score := 0 } c3msg
    (by decide) rfl rfl

/-- Claim C4: starting from a running game, one `updateGameState` call
turns `gameRunning` off and shows the game-over screen exactly when the
snapshot's `currentTarget` exceeds 100 or some roster member's score
exceeds 50 — both conditions are checked on every update, whichever
occurs first. -/
theorem c4_game_over (st : MPState) (room : RoomSnapshot) (lm : Option LastMove)
    (h : st.gameRunning = true) :
    ((MultiplayerGame.updateGameState st room lm).1.gameRunning = false ↔
      (100 < room.currentTarget ∨
        room.players.any (fun q : SPlayer => decide (50 < q.score)) = true)) ∧
    ((MultiplayerGame.updateGameState st room lm).2.gameOverShown = true ↔
      (100 < room.currentTarget ∨
        room.players.any (fun q : SPlayer => decide (50 < q.score)) = true)) := by
  have hhs : (room.players.find? (fun p : SPlayer => decide (50 < p.score))).isSome
      = room.players.any (fun p : SPlayer => decide (50 < p.score)) :=
    find?_isSome_any _ _
  by_cases hT : 100 < room.currentTarget <;>
    by_cases hS : room.players.any (fun q : SPlayer => decide (50 < q.score)) = true <;>
      simp [MultiplayerGame.updateGameState, hhs, h, hT, hS]

/-- Concrete client state for the C4 witness. -/
def c4st : MPState :=
  { currentTarget := 1, gameRunning := true, players := [], buttons := [],
    playerId := 0, roomCode := "", socketConnected := true }

/-- Concrete snapshot with the target past 100. -/
def c4room : RoomSnapshot :=
  { players := [{ id := 0, position := 1, score := 0 }], currentTarget := 101 }

/-- Claim C4, witness: a snapshot with target 101 finishes the game. -/
theorem c4_game_over_witness :
    ((MultiplayerGame.updateGameState c4st c4room none).1.gameRunning = false ↔
      (100 < c4room.currentTarget ∨
        c4room.players.any (fun q : SPlayer => decide (50 < q.score)) = true)) ∧
    ((MultiplayerGame.updateGameState c4st c4room none).2.gameOverShown = true ↔
      (100 < c4room.currentTarget ∨
        c4room.players.any (fun q : SPlayer => decide (50 < q.score)) = true)) :=
  c4_game_over c4st c4room none rfl

/-- Claim C5, amended: the found-cell marker and the found animation can
only ever be produced by a delta whose type tag is `confirm` with
`targetFound = true` — a move-tagged delta or an absent delta never
triggers them.  (The claim's further idempotency part fails: see the
counterexample.) -/
theorem c5_confirm_gating (st : MPState) (room : RoomSnapshot) (d : LastMove)
    (h : (MultiplayerGame.updateGameState st room (some d)).2.foundMarkerApplied = true ∨
         (MultiplayerGame.updateGameState st room (some d)).2.foundAnimationTriggered = true) :
    (d.type = "confirm" ∧ d.targetFound = true) ∧
    (MultiplayerGame.updateGameState st room none).2.foundMarkerApplied = false ∧
    (MultiplayerGame.updateGameState st room none).2.foundAnimationTriggered = false := by
  refine ⟨?_, by simp [MultiplayerGame.updateGameState], by simp [MultiplayerGame.updateGameState]⟩
  by_cases hg : (d.targetFound && decide (d.type = "confirm")) = true
  · rw [Bool.and_eq_true] at hg
    exact ⟨of_decide_eq_true hg.2, hg.1⟩
  · exfalso
    simp only [MultiplayerGame.updateGameState, if_neg hg] at h
    simp at h

/-- Concrete client state for the C5 witness and counterexample: one
player (id 3) on a one-cell board, target about to advance to 2. -/
def c5st : MPState :=
  { currentTarget := 1, gameRunning := true,
    players := [{ id := 3, index := 1, positionIndex := 1, score := 0 }],
    buttons := [{ innerHTML := 1, classList := [] }],
    playerId := 3, roomCode := "", socketConnected := true }

/-- Concrete snapshot confirming target 1 (so `currentTarget` is now 2). -/
def c5room : RoomSnapshot :=
  { players := [{ id := 3, position := 1, score := 1 }], currentTarget := 2 }

/-- The confirm-tagged delta of that snapshot. -/
def c5lm : LastMove := { type := "confirm", targetFound := true, playerId := 3 }

/-- Claim C5, witness: a confirm-tagged `targetFound` delta does trigger
the marker and the animation, and the gating theorem applies to it. -/
theorem c5_confirm_gating_witness :
    (c5lm.type = "confirm" ∧ c5lm.targetFound = true) ∧
    (MultiplayerGame.updateGameState c5st c5room none).2.foundMarkerApplied = false ∧
    (MultiplayerGame.updateGameState c5st c5room none).2.foundAnimationTriggered = false :=
  c5_confirm_gating c5st c5room c5lm (Or.inr (by decide))

/-- Claim C5, counterexample to the idempotency part: re-delivering the
very same snapshot and confirm delta a second time — when the client's
`currentTarget` already equals the snapshot's (the target is already
applied) — triggers the found animation again; there is no
idempotency guard. -/
theorem c5_confirm_gating_counterexample :
    (MultiplayerGame.updateGameState
        (MultiplayerGame.updateGameState c5st c5room (some c5lm)).1 c5room
        (some c5lm)).2.foundAnimationTriggered = true ∧
    (MultiplayerGame.updateGameState c5st c5room (some c5lm)).1.currentTarget =
      c5room.currentTarget := by
  decide
